import Mathlib

/-!
# Verification of the `fprint-prompt` overlay client (`src/main.rs`)

Shallow embedding of the presentation engine of `fprint-prompt`, a Wayland
layer-shell overlay that displays fingerprint-authentication progress
delivered over the system D-Bus.

Modelling conventions:
* `u32` values are modelled as `Nat`; where wrap-around is observable
  (release-mode wrapping arithmetic) we reduce modulo `2^32` explicitly.
* Fallible code (Rust panics such as `unreachable!()`, division by zero,
  remainder by zero) is modelled with `Option`: `none` marks a panic.
* The `f32` field `scale` is written exactly once (`scale as f32 / 120.`)
  and never read again anywhere in the program, so we model the assigned
  value as the exact rational `scale / 120`.
* D-Bus messages are modelled by their observable parts: message type,
  interface, optional member, and the argument list.  The `dbus` crate's
  `get1::<String>` / `get2::<String, bool>` accessors read the arguments
  positionally, yielding `none` on a missing or differently-typed argument
  at that position.
-/

namespace FprintPrompt

/-- The constant `2^32`, the modulus of `u32` arithmetic. -/
def u32Mod : Nat := 2 ^ 32

/-- The wlr-layer-shell `Anchor` bitflag constants used by the program. -/
def Anchor.TOP : Nat := 1

def Anchor.BOTTOM : Nat := 2

def Anchor.LEFT : Nat := 4

def Anchor.RIGHT : Nat := 8

/-- Model of `struct PositionInfo` from `src/main.rs` (the geometry spec):
thickness, length, edge anchor, close-to anchor, offset — all `u32`
except the two `Anchor` bitflags. -/
structure PositionInfo where
  thickness : Nat
  length : Nat
  edge : Nat
  close_to : Nat
  offset : Nat
deriving DecidableEq, Repr

/-- Model of `PositionInfo::win_width`: `length + offset` for a top/bottom edge,
`thickness` for a left/right edge, `unreachable!()` (modelled `none`)
otherwise.  The `u32` addition wraps modulo `2^32`. -/
def PositionInfo.win_width (p : PositionInfo) : Option Nat :=
  if p.edge = Anchor.TOP ∨ p.edge = Anchor.BOTTOM then
    some ((p.length + p.offset) % u32Mod)
  else if p.edge = Anchor.LEFT ∨ p.edge = Anchor.RIGHT then
    some p.thickness
  else
    none

/-- Model of `PositionInfo::win_height`: `thickness` for a top/bottom edge,
`length + offset` for a left/right edge, `unreachable!()` otherwise. -/
def PositionInfo.win_height (p : PositionInfo) : Option Nat :=
  if p.edge = Anchor.TOP ∨ p.edge = Anchor.BOTTOM then
    some p.thickness
  else if p.edge = Anchor.LEFT ∨ p.edge = Anchor.RIGHT then
    some ((p.length + p.offset) % u32Mod)
  else
    none

/-- D-Bus message types (`dbus::MessageType`). -/
inductive MessageType where
  | signal
  | methodCall
  | methodReturn
  | error
deriving DecidableEq, Repr

/-- A D-Bus argument as observed by the decoder: a string, a boolean, or
anything else (any other wire type, opaque to this program). -/
inductive DBusArg where
  | str (s : String)
  | boolean (b : Bool)
  | other
deriving DecidableEq, Repr

/-- The observable parts of a `dbus::Message`.  A D-Bus signal always
carries an interface; non-signal messages return from the decoder before
the interface is read, so a plain `String` field loses nothing. -/
structure Message where
  msg_type : MessageType
  interface : String
  member : Option String
  args : List DBusArg
deriving DecidableEq, Repr

/-- Model of `msg.get1::<String>()`: the first argument if it is a string,
`none` otherwise (missing argument or wrong type). -/
def Message.get1String (m : Message) : Option String :=
  match m.args.get? 0 with
  | some (DBusArg.str s) => some s
  | _ => none

/-- Model of `msg.get2::<String, bool>()`: reads argument position 0 as a string and
position 1 as a bool, independently; each read yields `none` when the
argument at that position is missing or has a different type. -/
def Message.get2StringBool (m : Message) : Option String × Option Bool :=
  (match m.args.get? 0 with
   | some (DBusArg.str s) => some s
   | _ => none,
   match m.args.get? 1 with
   | some (DBusArg.boolean b) => some b
   | _ => none)

/-- Model of `enum FprintEvent` from `src/main.rs`. -/
inductive FprintEvent where
  | verifyFingerSelected (finger_name : Option String)
  | verifyStatus (result : Option String) (done : Option Bool)
deriving DecidableEq, Repr

/-- Model of `fn verify_status_msg(msg: &Message) -> Option<FprintEvent>`:
drops non-signals and signals not on `net.reactivated.Fprint.Device`;
decodes member `VerifyFingerSelected` via `get1::<String>` and member
`VerifyStatus` via `get2::<String, bool>`; any other member drops the
message. -/
def verify_status_msg (msg : Message) : Option FprintEvent :=
  if msg.msg_type ≠ MessageType.signal then
    none
  else if msg.interface ≠ "net.reactivated.Fprint.Device" then
    none
  else
    match msg.member with
    | some "VerifyFingerSelected" =>
        some (FprintEvent.verifyFingerSelected msg.get1String)
    | some "VerifyStatus" =>
        let rd := msg.get2StringBool
        some (FprintEvent.verifyStatus rd.1 rd.2)
    | _ => none

/-- The bus-message arm of the main loop: `VerifyFingerSelected` assigns
`finger_name` (the whole `Option`) to `prompt`; `VerifyStatus` clears
`prompt` exactly when `done == Some(true)`; an undecoded message leaves
`prompt` unchanged. -/
def handleBusMessage (prompt : Option String) (m : Message) : Option String :=
  match verify_status_msg m with
  | some (FprintEvent.verifyFingerSelected finger_name) => finger_name
  | some (FprintEvent.verifyStatus _ done) =>
      if done = some true then none else prompt
  | none => prompt

/-- The mutable engine state: the fields of `struct SimpleLayer` that carry
observable state (protocol handles, registry/seat/output bookkeeping and the
buffer pool itself are environment resources, not values). -/
structure SimpleLayer where
  exit : Bool
  first_configure : Bool
  width : Nat
  height : Nat
  shift : Option Nat
  keyboard_focus : Bool
  pos : PositionInfo
  scale : Rat
  prompt : Option String
deriving DecidableEq, Repr

/-- The observable outcome of one `draw()` call: the state after the call,
the width/height passed to `SlotPool::create_buffer`, and the byte contents
of the canvas after painting (the paint loops overwrite every byte, so the
result does not depend on the recycled buffer's prior contents). -/
structure DrawResult where
  state : SimpleLayer
  bufWidth : Nat
  bufHeight : Nat
  canvas : List Nat
deriving DecidableEq, Repr

/-- Model of `u32::to_le_bytes` on a value already reduced below `2^32`. -/
def toLeBytes (c : Nat) : List Nat :=
  [c % 256, c / 2 ^ 8 % 256, c / 2 ^ 16 % 256, c / 2 ^ 24 % 256]

/-- One iteration of the active-prompt paint loop
(`canvas.chunks_exact_mut(4).enumerate().for_each(...)`): for chunk `index`,
`y = index / width` and the chunk is set to the little-endian bytes of
`0x0` when `y < offset` and `0xFFFFFFFF` otherwise.  The source also
computes `_x = (index + shift) % width`, but `_x` is dead: the colour is a
function of `y` alone. -/
def paintPixel (offset width : Nat) (index : Nat) : List Nat :=
  let y := index / width
  toLeBytes (if y < offset then 0x0 else 0xFFFFFFFF)

/-- The canvas contents after the paint phase of `draw()`: with no active
prompt every byte of the `width*height*4`-byte canvas is zeroed; with an
active prompt each of the `width*height` four-byte chunks is painted by
`paintPixel`. -/
def drawCanvas (prompt : Option String) (offset width height : Nat) :
    List Nat :=
  match prompt with
  | none => List.replicate (width * height * 4) 0
  | some _ => (List.range (width * height)).flatMap (paintPixel offset width)

/-- Model of `SimpleLayer::draw`: takes the buffer dimensions from
`pos.win_width()` / `pos.win_height()` (not from the stored
`width`/`height` fields), paints the canvas, and — only when the prompt is
active — advances an engaged shift by 1 modulo the buffer width (`% 0`
panics in Rust, modelled `none`).  A non-cardinal edge panics inside
`win_width` (`none`). -/
def draw (s : SimpleLayer) : Option DrawResult :=
  match s.pos.win_width, s.pos.win_height with
  | some width, some height =>
      let canvas := drawCanvas s.prompt s.pos.offset width height
      match s.prompt with
      | some _ =>
          match s.shift with
          | some n =>
              if width = 0 then none
              else some ⟨{ s with shift := some ((n + 1) % width) },
                         width, height, canvas⟩
          | none => some ⟨s, width, height, canvas⟩
      | none => some ⟨s, width, height, canvas⟩
  | _, _ => none

/-- Model of `LayerShellHandler::configure`: stores `(256, 256)` when either
component of `new_size` is zero and `new_size` verbatim otherwise; on the
first configure it clears `first_configure` and performs the first draw
(returned as the second component). -/
def configure (s : SimpleLayer) (new_size : Nat × Nat) :
    Option (SimpleLayer × Option DrawResult) :=
  let s1 :=
    if new_size.1 = 0 ∨ new_size.2 = 0 then
      { s with width := 256, height := 256 }
    else
      { s with width := new_size.1, height := new_size.2 }
  if s1.first_configure then
    match draw { s1 with first_configure := false } with
    | some r => some (r.state, some r)
    | none => none
  else
    some (s1, none)

/-- The cast `u32 as i32`: values below `2^31` unchanged, larger values wrapped. -/
def toI32 (n : Nat) : Int :=
  if n % u32Mod < 2 ^ 31 then ((n % u32Mod : Nat) : Int)
  else ((n % u32Mod : Nat) : Int) - (u32Mod : Int)

/-- The `WpFractionalScaleV1` `PreferredScale` handler: sets
`scale := scale120 / 120` (stored as `f32` in the source; the field is
never read again, so its value is modelled exactly), requests surface size
`(win_width*120/scale120, win_height*120/scale120)` (u32 wrapping multiply,
truncating division; `scale120 = 0` divides by zero, modelled `none`) and
sets the viewport destination to the same pair cast `as i32`.  Returns the
new state, the `set_size` arguments, and the `set_destination`
arguments. -/
def preferredScale (s : SimpleLayer) (scale : Nat) :
    Option (SimpleLayer × (Nat × Nat) × (Int × Int)) :=
  if scale = 0 then none
  else
    match s.pos.win_width, s.pos.win_height with
    | some w, some h =>
        let sw := w * 120 % u32Mod / scale
        let sh := h * 120 % u32Mod / scale
        some ({ s with scale := (scale : Rat) / 120 },
              (sw, sh), (toI32 sw, toI32 sh))
    | _, _ => none

/-- X11 keysym of the Escape key (`Keysym::Escape`). -/
def escapeKeysym : Nat := 0xff1b

/-- The display-protocol events dispatched to the handlers of
`SimpleLayer` that touch observable state. -/
inductive Event where
  | keyPress (keysym : Nat)
  | keyRelease (keysym : Nat)
  | focusEnter
  | focusLeave
  | closed
  | configureEv (new_size : Nat × Nat)
  | frame
  | pointerPress
  | preferredScaleEv (scale : Nat)
deriving DecidableEq, Repr

/-- One handler dispatch. `keyPress` sets `exit` on Escape
(`KeyboardHandler::press_key`); `closed` sets `exit`
(`LayerShellHandler::closed`); `frame` calls `draw`
(`CompositorHandler::frame`); `pointerPress` performs
`shift = shift.xor(Some(0))` (`PointerHandler`); enter/leave track
keyboard focus; `keyRelease` only logs. -/
def step (s : SimpleLayer) : Event → Option SimpleLayer
  | Event.keyPress k =>
      some (if k = escapeKeysym then { s with exit := true } else s)
  | Event.keyRelease _ => some s
  | Event.focusEnter => some { s with keyboard_focus := true }
  | Event.focusLeave => some { s with keyboard_focus := false }
  | Event.closed => some { s with exit := true }
  | Event.configureEv n => (configure s n).map Prod.fst
  | Event.frame => (draw s).map DrawResult.state
  | Event.pointerPress =>
      some { s with shift := match s.shift with
                             | none => some 0
                             | some _ => none }
  | Event.preferredScaleEv k => (preferredScale s k).map Prod.fst

/-- Dispatching a batch of events in order (one `blocking_dispatch`). -/
def stepAll (s : SimpleLayer) : List Event → Option SimpleLayer
  | [] => some s
  | e :: rest =>
      match step s e with
      | none => none
      | some s' => stepAll s' rest

/-- One iteration of the main loop: a blocking dispatch of a batch of
display events followed by at most one polled bus message. -/
def loopIter (s : SimpleLayer) (evs : List Event) (msg : Option Message) :
    Option SimpleLayer :=
  match stepAll s evs with
  | none => none
  | some s' =>
      some (match msg with
            | some m => { s' with prompt := handleBusMessage s'.prompt m }
            | none => s')

/-- The main loop over a finite input trace: each iteration runs
`loopIter` and then breaks exactly when `exit` is set (the check sits at
the end of the iteration, as in the source). -/
def runLoop (s : SimpleLayer) :
    List (List Event × Option Message) → Option SimpleLayer
  | [] => some s
  | it :: rest =>
      match loopIter s it.1 it.2 with
      | none => none
      | some s' => if s'.exit then some s' else runLoop s' rest

/-- The events whose handlers assign `exit` (always to `true`): an Escape
key press and the surface-closed notification. -/
def setsExit : Event → Bool
  | Event.keyPress k => k = escapeKeysym
  | Event.closed => true
  | _ => false

/-! ## Concrete states used by witnesses and counterexamples -/

/-- The engine state as `main` constructs it, with the first configure
already acknowledged. -/
def sBase : SimpleLayer :=
  { exit := false, first_configure := false, width := 8, height := 238,
    shift := none, keyboard_focus := false,
    pos := { thickness := 8, length := 138, edge := Anchor.RIGHT,
             close_to := Anchor.TOP, offset := 100 },
    scale := 1, prompt := none }

/-- A small active-prompt state: edge TOP, `win_width = 2`,
`win_height = 1`, `offset = 1`. -/
def sTiny : SimpleLayer :=
  { sBase with
    pos := { thickness := 1, length := 1, edge := Anchor.TOP,
             close_to := Anchor.TOP, offset := 1 },
    prompt := some "right-index-finger" }

/-! ## Helper lemmas -/

/-- Extracting chunk `i` from a `flatMap` whose blocks all have length 4. -/
theorem flatMap_chunk_extract (f : Nat → List Nat)
    (hf : ∀ x, (f x).length = 4) :
    ∀ (l : List Nat) (i : Nat), i < l.length →
      ((l.flatMap f).drop (4 * i)).take 4 = f (l.getD i 0) := by
  intro l
  induction l with
  | nil => intro i hi; simp at hi
  | cons a t ih =>
    intro i hi
    cases i with
    | zero =>
      rw [List.flatMap_cons, Nat.mul_zero, List.drop_zero, List.getD_cons_zero]
      rw [← hf a]
      exact List.take_left _ _
    | succ i' =>
      have h4 : 4 * (i' + 1) = (f a).length + 4 * i' := by
        rw [hf a]; ring
      rw [List.flatMap_cons, h4, ← List.drop_drop, List.drop_left,
        List.getD_cons_succ]
      exact ih i' (Nat.lt_of_succ_lt_succ hi)

/-- Every painted chunk has four bytes. -/
theorem paintPixel_length (offset width i : Nat) :
    (paintPixel offset width i).length = 4 := rfl

/-- The active-prompt canvas has `width * height * 4` bytes. -/
theorem drawCanvas_some_length (name : String) (offset width height : Nat) :
    (drawCanvas (some name) offset width height).length =
      width * height * 4 := by
  unfold drawCanvas
  rw [List.length_flatMap]
  have hmap : List.map (List.length ∘ paintPixel offset width)
      (List.range (width * height)) =
      List.map (Function.const Nat 4) (List.range (width * height)) := rfl
  rw [hmap, List.map_const, List.sum_replicate, List.length_range,
    smul_eq_mul]

/-- Chunk `i` of the active-prompt canvas is exactly `paintPixel i`. -/
theorem drawCanvas_some_extract (name : String) (offset width height i : Nat)
    (hi : i < width * height) :
    ((drawCanvas (some name) offset width height).drop (4 * i)).take 4 =
      paintPixel offset width i := by
  unfold drawCanvas
  rw [flatMap_chunk_extract (paintPixel offset width)
    (paintPixel_length offset width) _ i (by simpa using hi)]
  rw [List.getD_eq_getElem?_getD, List.getElem?_range hi]
  rfl

/-- The function `draw` changes at most the `shift` field of the state. -/
theorem draw_state_fields (s : SimpleLayer) (r : DrawResult)
    (h : draw s = some r) :
    r.state.exit = s.exit ∧ r.state.first_configure = s.first_configure ∧
      r.state.width = s.width ∧ r.state.height = s.height ∧
      r.state.keyboard_focus = s.keyboard_focus ∧ r.state.pos = s.pos ∧
      r.state.scale = s.scale ∧ r.state.prompt = s.prompt := by
  unfold draw at h
  split at h
  · split at h
    · split at h
      · split at h
        · exact absurd h (by simp)
        · cases h; exact ⟨rfl, rfl, rfl, rfl, rfl, rfl, rfl, rfl⟩
      · cases h; exact ⟨rfl, rfl, rfl, rfl, rfl, rfl, rfl, rfl⟩
    · cases h; exact ⟨rfl, rfl, rfl, rfl, rfl, rfl, rfl, rfl⟩
  · exact absurd h (by simp)

/-- The function `draw` reports the geometry-spec dimensions and paints the canvas by
`drawCanvas`. -/
theorem draw_canvas_spec (s : SimpleLayer) (r : DrawResult)
    (h : draw s = some r) :
    s.pos.win_width = some r.bufWidth ∧ s.pos.win_height = some r.bufHeight ∧
      r.canvas = drawCanvas s.prompt s.pos.offset r.bufWidth r.bufHeight := by
  unfold draw at h
  split at h
  · rename_i width height hw hh
    split at h
    · split at h
      · split at h
        · exact absurd h (by simp)
        · cases h; exact ⟨hw, hh, rfl⟩
      · cases h; exact ⟨hw, hh, rfl⟩
    · cases h; exact ⟨hw, hh, rfl⟩
  · exact absurd h (by simp)

/-- Little-endian bytes of the transparent/black pixel. -/
theorem toLeBytes_zero : toLeBytes 0x0 = [0, 0, 0, 0] := by decide

/-- Little-endian bytes of the opaque-white pixel. -/
theorem toLeBytes_white : toLeBytes 0xFFFFFFFF = [255, 255, 255, 255] := by
  decide

/-!  ## Claims -/

/-- Claim C1: for every call to `draw()`: if `prompt` (the active finger
name) is `none`, every byte of the painted buffer is zero (fully
transparent); if it is `some _`, then for every pixel index `i` of the
buffer, the pixel in row `y = i / width` is painted `0x00000000`
(transparent/black, little-endian bytes `[0,0,0,0]`) when
`y < pos.offset` and `0xFFFFFFFF` (opaque white, bytes `[255,255,255,255]`)
when `y ≥ pos.offset`. -/
theorem draw_paint_rule (s : SimpleLayer) (r : DrawResult)
    (h : draw s = some r) :
    r.canvas.length = r.bufWidth * r.bufHeight * 4 ∧
      (s.prompt = none → ∀ b ∈ r.canvas, b = 0) ∧
      (∀ name, s.prompt = some name → ∀ i, i < r.bufWidth * r.bufHeight →
        (r.canvas.drop (4 * i)).take 4 =
          if i / r.bufWidth < s.pos.offset then [0, 0, 0, 0]
          else [255, 255, 255, 255]) := by
  obtain ⟨hw, hh, hc⟩ := draw_canvas_spec s r h
  refine ⟨?_, ?_, ?_⟩
  · cases hp : s.prompt with
    | none => rw [hc, hp]; simp [drawCanvas]
    | some name =>
        rw [hc, hp]
        exact drawCanvas_some_length name s.pos.offset r.bufWidth r.bufHeight
  · intro hp b hb
    rw [hc, hp] at hb
    exact List.eq_of_mem_replicate hb
  · intro name hp i hi
    rw [hc, hp,
      drawCanvas_some_extract name s.pos.offset r.bufWidth r.bufHeight i hi]
    show toLeBytes (if i / r.bufWidth < s.pos.offset then 0x0 else 0xFFFFFFFF)
      = _
    by_cases hy : i / r.bufWidth < s.pos.offset
    · rw [if_pos hy, if_pos hy, toLeBytes_zero]
    · rw [if_neg hy, if_neg hy, toLeBytes_white]

/-- The tiny active-prompt draw outcome used as the C1 witness: both
pixels lie in rows `y < offset`, so the canvas is all transparent. -/
def c1r : DrawResult := ⟨sTiny, 2, 1, [0, 0, 0, 0, 0, 0, 0, 0]⟩

/-- Witness for C1 at the concrete state `sTiny`. -/
theorem draw_paint_rule_witness :
    draw sTiny = some c1r ∧
      (c1r.canvas.length = c1r.bufWidth * c1r.bufHeight * 4 ∧
        (sTiny.prompt = none → ∀ b ∈ c1r.canvas, b = 0) ∧
        (∀ name, sTiny.prompt = some name →
          ∀ i, i < c1r.bufWidth * c1r.bufHeight →
            (c1r.canvas.drop (4 * i)).take 4 =
              if i / c1r.bufWidth < sTiny.pos.offset then [0, 0, 0, 0]
              else [255, 255, 255, 255])) :=
  ⟨by decide, draw_paint_rule sTiny c1r (by decide)⟩

/-- Claim C9: for every `PositionInfo` whose edge is TOP or BOTTOM the
computed size has `width = length + offset` and `height = thickness`;
for LEFT or RIGHT, `width = thickness` and `height = length + offset`.
(The computation is a pure function of the record — side-effect freedom
is inherent to its embedding as a `def`.) -/
theorem win_size_rule (p : PositionInfo)
    (hov : p.length + p.offset < u32Mod) :
    ((p.edge = Anchor.TOP ∨ p.edge = Anchor.BOTTOM) →
        p.win_width = some (p.length + p.offset) ∧
        p.win_height = some p.thickness) ∧
    ((p.edge = Anchor.LEFT ∨ p.edge = Anchor.RIGHT) →
        p.win_width = some p.thickness ∧
        p.win_height = some (p.length + p.offset)) := by
  constructor
  · intro he
    rcases he with h | h <;>
      simp [PositionInfo.win_width, PositionInfo.win_height, h, Anchor.TOP,
        Anchor.BOTTOM, Anchor.LEFT, Anchor.RIGHT, Nat.mod_eq_of_lt hov]
  · intro he
    rcases he with h | h <;>
      simp [PositionInfo.win_width, PositionInfo.win_height, h, Anchor.TOP,
        Anchor.BOTTOM, Anchor.LEFT, Anchor.RIGHT, Nat.mod_eq_of_lt hov]

/-- Witness for C9 at the program's own geometry spec
(`thickness 8, length 138, edge RIGHT, offset 100`). -/
theorem win_size_rule_witness :
    sBase.pos.length + sBase.pos.offset < u32Mod ∧
      (((sBase.pos.edge = Anchor.TOP ∨ sBase.pos.edge = Anchor.BOTTOM) →
          sBase.pos.win_width = some (sBase.pos.length + sBase.pos.offset) ∧
          sBase.pos.win_height = some sBase.pos.thickness) ∧
        ((sBase.pos.edge = Anchor.LEFT ∨ sBase.pos.edge = Anchor.RIGHT) →
          sBase.pos.win_width = some sBase.pos.thickness ∧
          sBase.pos.win_height =
            some (sBase.pos.length + sBase.pos.offset))) :=
  ⟨by decide, win_size_rule sBase.pos (by decide)⟩

/-- Claim C2 counterexample: the claim says a `new_size` that is not
`(0,0)` — in particular one with a single zero component — is stored
verbatim.  The code falls back to `(256,256)` whenever either component
is zero: configuring `sBase` with `(0,5)` stores `(256,256)`, not
`(0,5)`. -/
theorem configure_verbatim_cex :
    (configure sBase (0, 5)).map (fun p => (p.1.width, p.1.height)) =
        some (256, 256) ∧
      (configure sBase (0, 5)).map (fun p => (p.1.width, p.1.height)) ≠
        some (0, 5) := by decide

/-- Claim C2 amended: a configure whose `new_size` has either component
zero (including `(0,0)`) stores `(256,256)`; a `new_size` with both
components nonzero is stored verbatim. -/
theorem configure_size_rule (s : SimpleLayer) (n : Nat × Nat)
    (r : SimpleLayer × Option DrawResult) (h : configure s n = some r) :
    (r.1.width, r.1.height) =
      if n.1 = 0 ∨ n.2 = 0 then (256, 256) else n := by
  unfold configure at h
  by_cases hz : n.1 = 0 ∨ n.2 = 0
  · rw [if_pos hz]
    rw [if_pos hz] at h
    simp only [] at h
    split at h
    · split at h
      · rename_i r' hdraw
        cases h
        have hf := draw_state_fields _ _ hdraw
        exact Prod.ext hf.2.2.1 hf.2.2.2.1
      · exact absurd h (by simp)
    · cases h; rfl
  · rw [if_neg hz]
    rw [if_neg hz] at h
    simp only [] at h
    split at h
    · split at h
      · rename_i r' hdraw
        cases h
        have hf := draw_state_fields _ _ hdraw
        exact Prod.ext hf.2.2.1 hf.2.2.2.1
      · exact absurd h (by simp)
    · cases h; rfl

/-- Witness for C2 at `sBase` with the `(0,0)` fallback input. -/
theorem configure_size_rule_witness :
    configure sBase (0, 0) =
        some ({ sBase with width := 256, height := 256 }, none) ∧
      (({ sBase with width := 256, height := 256 } : SimpleLayer).width,
        ({ sBase with width := 256, height := 256 } : SimpleLayer).height) =
        if (0 : Nat) = 0 ∨ (0 : Nat) = 0 then ((256 : Nat), (256 : Nat))
        else (0, 0) :=
  ⟨by decide,
    configure_size_rule sBase (0, 0)
      ({ sBase with width := 256, height := 256 }, none) (by decide)⟩

/-! ## Bus decode helpers and claims C3, C7, C8 -/

/-- Decoding a well-addressed `VerifyFingerSelected` signal. -/
theorem verify_decode_finger (m : Message)
    (hsig : m.msg_type = MessageType.signal)
    (hif : m.interface = "net.reactivated.Fprint.Device")
    (hm : m.member = some "VerifyFingerSelected") :
    verify_status_msg m =
      some (FprintEvent.verifyFingerSelected m.get1String) := by
  unfold verify_status_msg
  rw [hsig, hif, hm]
  rfl

/-- Decoding a well-addressed `VerifyStatus` signal. -/
theorem verify_decode_status (m : Message)
    (hsig : m.msg_type = MessageType.signal)
    (hif : m.interface = "net.reactivated.Fprint.Device")
    (hm : m.member = some "VerifyStatus") :
    verify_status_msg m =
      some (FprintEvent.verifyStatus m.get2StringBool.1
        m.get2StringBool.2) := by
  unfold verify_status_msg
  rw [hsig, hif, hm]
  rfl

/-- A sample well-formed `VerifyFingerSelected` signal. -/
def mFinger : Message :=
  ⟨MessageType.signal, "net.reactivated.Fprint.Device",
   some "VerifyFingerSelected", [DBusArg.str "right-index-finger"]⟩

/-- A sample malformed `VerifyFingerSelected` signal: the single argument
has the wrong type (a boolean, not a string). -/
def mMalformedFinger : Message :=
  ⟨MessageType.signal, "net.reactivated.Fprint.Device",
   some "VerifyFingerSelected", [DBusArg.boolean true]⟩

/-- A sample signal on a foreign interface. -/
def mOther : Message :=
  ⟨MessageType.signal, "org.freedesktop.DBus", some "NameAcquired",
   [DBusArg.str "x"]⟩

/-- Claim C3: on interface `net.reactivated.Fprint.Device`, a
`VerifyFingerSelected` signal whose first argument is the string `name`
sets the prompt to `some name`; a `VerifyStatus` signal whose `done`
argument (position 1) decodes to `some true` clears the prompt to `none`
regardless of its prior value; a `VerifyStatus` signal whose `done`
argument does not decode to `some true` leaves the prompt unchanged (the
`result` payload is never acted on). -/
theorem bus_event_rule (prompt : Option String) (m : Message)
    (hsig : m.msg_type = MessageType.signal)
    (hif : m.interface = "net.reactivated.Fprint.Device") :
    (∀ name rest, m.member = some "VerifyFingerSelected" →
        m.args = DBusArg.str name :: rest →
        handleBusMessage prompt m = some name) ∧
    (m.member = some "VerifyStatus" →
        m.args.get? 1 = some (DBusArg.boolean true) →
        handleBusMessage prompt m = none) ∧
    (m.member = some "VerifyStatus" →
        m.args.get? 1 ≠ some (DBusArg.boolean true) →
        handleBusMessage prompt m = prompt) := by
  refine ⟨?_, ?_, ?_⟩
  · intro name rest hm hargs
    unfold handleBusMessage
    rw [verify_decode_finger m hsig hif hm]
    show m.get1String = some name
    simp [Message.get1String, hargs]
  · intro hm hdone
    unfold handleBusMessage
    rw [verify_decode_status m hsig hif hm]
    have h2 : m.get2StringBool.2 = some true := by
      simp only [List.get?_eq_getElem?] at hdone
      simp [Message.get2StringBool, hdone]
    show (if m.get2StringBool.2 = some true then none else prompt) = none
    rw [if_pos h2]
  · intro hm hdone
    unfold handleBusMessage
    rw [verify_decode_status m hsig hif hm]
    have h2 : m.get2StringBool.2 ≠ some true := by
      unfold Message.get2StringBool
      cases harg : m.args.get? 1 with
      | none => simp [harg]
      | some a =>
          cases a with
          | str s => simp [harg]
          | boolean b =>
              cases b with
              | true => exact absurd harg hdone
              | false => simp [harg]
          | other => simp [harg]
    show (if m.get2StringBool.2 = some true then none else prompt) = prompt
    rw [if_neg h2]

/-- Witness for C3 at the sample `VerifyFingerSelected` signal. -/
theorem bus_event_rule_witness :
    (mFinger.msg_type = MessageType.signal ∧
      mFinger.interface = "net.reactivated.Fprint.Device") ∧
    ((∀ name rest, mFinger.member = some "VerifyFingerSelected" →
        mFinger.args = DBusArg.str name :: rest →
        handleBusMessage none mFinger = some name) ∧
      (mFinger.member = some "VerifyStatus" →
        mFinger.args.get? 1 = some (DBusArg.boolean true) →
        handleBusMessage none mFinger = none) ∧
      (mFinger.member = some "VerifyStatus" →
        mFinger.args.get? 1 ≠ some (DBusArg.boolean true) →
        handleBusMessage none mFinger = none)) :=
  ⟨⟨rfl, rfl⟩, bus_event_rule none mFinger rfl rfl⟩

/-- Claim C7 counterexample: the claim says a recognized member with a
malformed payload leaves the prompt unchanged.  A `VerifyFingerSelected`
signal whose argument has the wrong type decodes to
`finger_name = none`, which the main loop assigns to the prompt: prior
prompt `some "right-index-finger"` becomes `none`. -/
theorem malformed_unchanged_cex :
    handleBusMessage (some "right-index-finger") mMalformedFinger = none ∧
      (none : Option String) ≠ some "right-index-finger" := by decide

/-- Claim C7 amended: a malformed payload on a recognized member is
confined to that one message and never crashes the decoder, but it is not
always a no-op: a `VerifyFingerSelected` whose first argument fails to
decode as a string sets the prompt to `none`, and a `VerifyStatus` (with
any payload) clears the prompt exactly when argument position 1 decodes
as boolean `true`, leaving it unchanged otherwise. -/
theorem malformed_payload_rule (prompt : Option String) (m : Message)
    (hsig : m.msg_type = MessageType.signal)
    (hif : m.interface = "net.reactivated.Fprint.Device") :
    (m.member = some "VerifyFingerSelected" → m.get1String = none →
        handleBusMessage prompt m = none) ∧
    (m.member = some "VerifyStatus" →
        handleBusMessage prompt m =
          if m.get2StringBool.2 = some true then none else prompt) := by
  constructor
  · intro hm h1
    unfold handleBusMessage
    rw [verify_decode_finger m hsig hif hm]
    show m.get1String = none
    exact h1
  · intro hm
    unfold handleBusMessage
    rw [verify_decode_status m hsig hif hm]

/-- Witness for C7 at the sample malformed `VerifyFingerSelected`. -/
theorem malformed_payload_rule_witness :
    (mMalformedFinger.msg_type = MessageType.signal ∧
      mMalformedFinger.interface = "net.reactivated.Fprint.Device") ∧
    ((mMalformedFinger.member = some "VerifyFingerSelected" →
        mMalformedFinger.get1String = none →
        handleBusMessage (some "left-thumb") mMalformedFinger = none) ∧
      (mMalformedFinger.member = some "VerifyStatus" →
        handleBusMessage (some "left-thumb") mMalformedFinger =
          if mMalformedFinger.get2StringBool.2 = some true then none
          else some "left-thumb")) :=
  ⟨⟨rfl, rfl⟩, malformed_payload_rule (some "left-thumb") mMalformedFinger
    rfl rfl⟩

/-- Claim C8: a message that is not a signal, or a signal on an interface
other than `net.reactivated.Fprint.Device`, or one whose member is
neither `VerifyFingerSelected` nor `VerifyStatus`, decodes to no event
and leaves the prompt unchanged. -/
theorem unrecognized_ignored (p : Option String) (m : Message)
    (h : m.msg_type ≠ MessageType.signal ∨
      m.interface ≠ "net.reactivated.Fprint.Device" ∨
      (m.member ≠ some "VerifyFingerSelected" ∧
        m.member ≠ some "VerifyStatus")) :
    verify_status_msg m = none ∧ handleBusMessage p m = p := by
  have hnone : verify_status_msg m = none := by
    unfold verify_status_msg
    rcases h with h | h | h
    · rw [if_pos h]
    · by_cases hs : m.msg_type ≠ MessageType.signal
      · rw [if_pos hs]
      · rw [if_neg hs, if_pos h]
    · by_cases hs : m.msg_type ≠ MessageType.signal
      · rw [if_pos hs]
      · rw [if_neg hs]
        by_cases hi : m.interface ≠ "net.reactivated.Fprint.Device"
        · rw [if_pos hi]
        · rw [if_neg hi]
          split
          · rename_i heq
            exact absurd heq h.1
          · rename_i heq
            exact absurd heq h.2
          · rfl
  refine ⟨hnone, ?_⟩
  unfold handleBusMessage
  rw [hnone]

/-- Witness for C8 at a signal on `org.freedesktop.DBus`. -/
theorem unrecognized_ignored_witness :
    (mOther.msg_type ≠ MessageType.signal ∨
      mOther.interface ≠ "net.reactivated.Fprint.Device" ∨
      (mOther.member ≠ some "VerifyFingerSelected" ∧
        mOther.member ≠ some "VerifyStatus")) ∧
    (verify_status_msg mOther = none ∧
      handleBusMessage (some "right-index-finger") mOther =
        some "right-index-finger") :=
  ⟨by decide,
    unrecognized_ignored (some "right-index-finger") mOther (by decide)⟩

/-! ## Scale synchronizer: claim C4 -/

/-- A state whose geometry yields `win_width = 100`, `win_height = 4`
(edge TOP, length 60, offset 40, thickness 4). -/
def sScale : SimpleLayer :=
  { sBase with
    pos := { thickness := 4, length := 60, edge := Anchor.TOP,
             close_to := Anchor.TOP, offset := 40 } }

/-- A state whose geometry yields the spec's example base size
`(100, 8)`. -/
def sScaleEx : SimpleLayer :=
  { sBase with
    pos := { thickness := 8, length := 60, edge := Anchor.TOP,
             close_to := Anchor.TOP, offset := 40 } }

/-- Claim C4 counterexample: the claim says the recomputed target size is
the component-wise *ceiling* of `size * 120 / scale120`.  At
`scale120 = 180` with base size `(100, 4)` the code requests `(66, 2)`
(truncating division), whereas the ceilings are `(67, 3)`. -/
theorem preferredScale_ceiling_cex :
    sScale.pos.win_width = some 100 ∧ sScale.pos.win_height = some 4 ∧
      (preferredScale sScale 180).map (fun r => r.2.1) = some (66, 2) ∧
      ((66 : Nat), (2 : Nat)) ≠
        ((100 * 120 + 180 - 1) / 180, (4 * 120 + 180 - 1) / 180) := by
  decide

/-- Claim C4 amended: for `scale120 > 0` the handler sets the (never again
read) scale field to the exact ratio `scale120 / 120` and requests a
surface size and viewport destination both equal, component-wise, to the
*truncating* integer division `size * 120 / scale120` (the spec's own
open question: the observed formula truncates, it does not round up).
The division is exact in the spec's example, so `scale120 = 240` with
base `(100, 8)` still yields `(50, 4)`. -/
theorem preferredScale_rule (s : SimpleLayer) (scale w h : Nat)
    (hscale : ¬scale = 0) (hw : s.pos.win_width = some w)
    (hh : s.pos.win_height = some h) (hwov : w * 120 < u32Mod)
    (hhov : h * 120 < u32Mod) :
    preferredScale s scale =
      some ({ s with scale := (scale : Rat) / 120 },
        (w * 120 / scale, h * 120 / scale),
        (toI32 (w * 120 / scale), toI32 (h * 120 / scale))) := by
  unfold preferredScale
  rw [if_neg hscale, hw, hh]
  simp only [Nat.mod_eq_of_lt hwov, Nat.mod_eq_of_lt hhov]

/-- Witness for C4 at the spec's own example (`scale120 = 240`, base size
`(100, 8)`, target `(50, 4)`). -/
theorem preferredScale_rule_witness :
    (¬(240 : Nat) = 0 ∧ sScaleEx.pos.win_width = some 100 ∧
      sScaleEx.pos.win_height = some 8 ∧ 100 * 120 < u32Mod ∧
      8 * 120 < u32Mod) ∧
    preferredScale sScaleEx 240 =
      some ({ sScaleEx with scale := ((240 : Nat) : Rat) / 120 },
        (100 * 120 / 240, 8 * 120 / 240),
        (toI32 (100 * 120 / 240), toI32 (8 * 120 / 240))) ∧
    (100 * 120 / 240, 8 * 120 / 240) = ((50 : Nat), (4 : Nat)) :=
  ⟨⟨by decide, by decide, by decide, by decide, by decide⟩,
    preferredScale_rule sScaleEx 240 100 8 (by decide) (by decide)
      (by decide) (by decide) (by decide),
    by decide⟩

/-! ## Buffer sizing: claim C5 -/

/-- An inactive-prompt state with the tiny geometry but large stored
configure size. -/
def sStored : SimpleLayer := { sBase with pos := sTiny.pos }

/-- The function `draw` reads none of the stored `width`/`height` fields: changing
them changes nothing observable about the produced buffer. -/
theorem draw_ignores_stored (s : SimpleLayer) (w' h' : Nat) :
    draw { s with width := w', height := h' } =
      (draw s).map (fun r =>
        ⟨{ r.state with width := w', height := h' },
         r.bufWidth, r.bufHeight, r.canvas⟩) := by
  obtain ⟨ex, fc, wd, hg, sh, kb, pos, sc, pr⟩ := s
  unfold draw
  dsimp only
  cases pos.win_width with
  | none => rfl
  | some w =>
      cases pos.win_height with
      | none => rfl
      | some ht =>
          cases pr with
          | none => rfl
          | some name =>
              cases sh with
              | none => rfl
              | some n =>
                  by_cases hw0 : w = 0
                  · simp [hw0]
                  · simp [hw0]

/-- Claim C5 counterexample: the claim says `draw()` sizes its buffer by
the stored width/height most recently established by a configure event.
After a configure stores `(250, 300)`, the next `draw` still obtains a
`(2, 1)` buffer — the geometry-spec size — not `(250, 300)`. -/
theorem draw_pool_size_cex :
    configure sStored (250, 300) =
        some ({ sStored with width := 250, height := 300 }, none) ∧
      (draw { sStored with width := 250, height := 300 }).map
          (fun r => (r.bufWidth, r.bufHeight)) = some (2, 1) ∧
      ((2 : Nat), (1 : Nat)) ≠ ((250 : Nat), (300 : Nat)) := by decide

/-- Claim C5 amended: every `draw()` obtains its buffer with dimensions
`(pos.win_width, pos.win_height)` computed from the immutable geometry
spec; the stored width/height fields written by configure events are
never consulted — changing them does not change the produced buffer. -/
theorem draw_pool_size_rule (s : SimpleLayer) (r : DrawResult)
    (h : draw s = some r) :
    s.pos.win_width = some r.bufWidth ∧
      s.pos.win_height = some r.bufHeight ∧
      ∀ w' h', draw { s with width := w', height := h' } =
        some ⟨{ r.state with width := w', height := h' },
              r.bufWidth, r.bufHeight, r.canvas⟩ := by
  obtain ⟨hw, hh, _⟩ := draw_canvas_spec s r h
  refine ⟨hw, hh, ?_⟩
  intro w' h'
  rw [draw_ignores_stored, h]
  rfl

/-- The C5 witness draw outcome at `sStored` (inactive prompt). -/
def c5r : DrawResult := ⟨sStored, 2, 1, List.replicate 8 0⟩

/-- Witness for C5 at `sStored`. -/
theorem draw_pool_size_rule_witness :
    draw sStored = some c5r ∧
      (sStored.pos.win_width = some c5r.bufWidth ∧
        sStored.pos.win_height = some c5r.bufHeight ∧
        ∀ w' h', draw { sStored with width := w', height := h' } =
          some ⟨{ c5r.state with width := w', height := h' },
                c5r.bufWidth, c5r.bufHeight, c5r.canvas⟩) :=
  ⟨by decide, draw_pool_size_rule sStored c5r (by decide)⟩

/-! ## Animation offset: claim C6 -/

/-- Inactive prompt with an engaged shift over the tiny geometry. -/
def sShiftIdle : SimpleLayer :=
  { sBase with pos := sTiny.pos, shift := some 0 }

/-- Active prompt with an engaged shift over the tiny geometry. -/
def sShiftActive : SimpleLayer := { sTiny with shift := some 0 }

/-- The C6 witness draw outcome: the shift advanced to `some 1`. -/
def c6r : DrawResult :=
  ⟨{ sShiftActive with shift := some 1 }, 2, 1, [0, 0, 0, 0, 0, 0, 0, 0]⟩

/-- Claim C6 counterexample: the claim says a frame advances an engaged
shift regardless of whether the prompt is active.  With the prompt
inactive (`prompt = none`, width 2), a `draw` leaves `shift = some 0`
instead of advancing it to `some ((0 + 1) % 2) = some 1`. -/
theorem shift_advance_cex :
    sShiftIdle.pos.win_width = some 2 ∧
      (draw sShiftIdle).map (fun r => r.state.shift) = some (some 0) ∧
      some ((0 : Nat)) ≠ some ((0 + 1) % 2) := by decide

/-- Claim C6 amended: a `draw` advances an engaged shift to
`some ((n + 1) % width)` only on frames where the prompt is active; when
the prompt is `none` the shift is left untouched. -/
theorem shift_advance_rule (s : SimpleLayer) (r : DrawResult) (w : Nat)
    (h : draw s = some r) (hw : s.pos.win_width = some w) :
    (s.prompt.isSome = true → ∀ n, s.shift = some n →
        r.state.shift = some ((n + 1) % w)) ∧
    (s.prompt = none → r.state.shift = s.shift) := by
  unfold draw at h
  split at h
  · rename_i width height hww hhh
    have hwid : width = w := by
      have hsw := hww.symm.trans hw
      injection hsw
    subst hwid
    split at h
    · rename_i name hp
      split at h
      · rename_i n hshift
        split at h
        · exact absurd h (by simp)
        · cases h
          constructor
          · intro _ n' hn'
            rw [hshift] at hn'
            injection hn' with hn'
            subst hn'
            rfl
          · intro hpn
            rw [hp] at hpn
            exact absurd hpn (by simp)
      · rename_i hshift
        cases h
        constructor
        · intro _ n' hn'
          rw [hshift] at hn'
          exact absurd hn' (by simp)
        · intro _
          rfl
    · rename_i hp
      cases h
      constructor
      · intro hps
        rw [hp] at hps
        exact absurd hps (by simp)
      · intro _
        rfl
  · exact absurd h (by simp)

/-- Witness for C6 at `sShiftActive`: the shift advances from `some 0`
to `some 1` with width 2. -/
theorem shift_advance_rule_witness :
    (draw sShiftActive = some c6r ∧
      sShiftActive.pos.win_width = some 2) ∧
    ((sShiftActive.prompt.isSome = true → ∀ n,
        sShiftActive.shift = some n →
        c6r.state.shift = some ((n + 1) % 2)) ∧
      (sShiftActive.prompt = none → c6r.state.shift = sShiftActive.shift)) :=
  ⟨⟨by decide, by decide⟩,
    shift_advance_rule sShiftActive c6r 2 (by decide) (by decide)⟩

/-! ## Exit flag: claim C10 -/

/-- The function `configure` never changes the exit flag. -/
theorem configure_exit (s : SimpleLayer) (n : Nat × Nat)
    (r : SimpleLayer × Option DrawResult) (h : configure s n = some r) :
    r.1.exit = s.exit := by
  unfold configure at h
  by_cases hz : n.1 = 0 ∨ n.2 = 0
  · rw [if_pos hz] at h
    simp only [] at h
    split at h
    · split at h
      · rename_i r' hdraw
        cases h
        exact (draw_state_fields _ _ hdraw).1
      · exact absurd h (by simp)
    · cases h; rfl
  · rw [if_neg hz] at h
    simp only [] at h
    split at h
    · split at h
      · rename_i r' hdraw
        cases h
        exact (draw_state_fields _ _ hdraw).1
      · exact absurd h (by simp)
    · cases h; rfl

/-- The preferred-scale handler never changes the exit flag. -/
theorem preferredScale_exit (s : SimpleLayer) (k : Nat)
    (r : SimpleLayer × (Nat × Nat) × (Int × Int))
    (h : preferredScale s k = some r) : r.1.exit = s.exit := by
  unfold preferredScale at h
  split at h
  · exact absurd h (by simp)
  · split at h
    · cases h; rfl
    · exact absurd h (by simp)

/-- Exactly the Escape key press and the closed notification set `exit`,
always to `true`; every other handler leaves it untouched. -/
theorem step_exit_eq (s : SimpleLayer) (e : Event) (s' : SimpleLayer)
    (h : step s e = some s') : s'.exit = (s.exit || setsExit e) := by
  cases e with
  | keyPress k =>
      simp only [step] at h
      cases h
      by_cases hk : k = escapeKeysym
      · simp [setsExit, hk]
      · simp [setsExit, hk]
  | keyRelease k =>
      simp only [step] at h
      cases h
      simp [setsExit]
  | focusEnter =>
      simp only [step] at h
      cases h
      simp [setsExit]
  | focusLeave =>
      simp only [step] at h
      cases h
      simp [setsExit]
  | closed =>
      simp only [step] at h
      cases h
      simp [setsExit]
  | configureEv n =>
      simp only [step, Option.map_eq_some'] at h
      obtain ⟨r, hr, hst⟩ := h
      rw [← hst]
      simp [setsExit, configure_exit s n r hr]
  | frame =>
      simp only [step, Option.map_eq_some'] at h
      obtain ⟨r, hr, hst⟩ := h
      rw [← hst]
      simp [setsExit, (draw_state_fields s r hr).1]
  | pointerPress =>
      simp only [step] at h
      cases h
      simp [setsExit]
  | preferredScaleEv k =>
      simp only [step, Option.map_eq_some'] at h
      obtain ⟨r, hr, hst⟩ := h
      rw [← hst]
      simp [setsExit, preferredScale_exit s k r hr]

/-- Once set, the exit flag survives any batch of dispatched events. -/
theorem stepAll_exit_mono (evs : List Event) :
    ∀ s s' : SimpleLayer, s.exit = true → stepAll s evs = some s' →
      s'.exit = true := by
  induction evs with
  | nil =>
      intro s s' hs h
      simp only [stepAll] at h
      cases h
      exact hs
  | cons e rest ih =>
      intro s s' hs h
      simp only [stepAll] at h
      split at h
      · exact absurd h (by simp)
      · rename_i s1 hstep
        refine ih s1 s' ?_ h
        rw [step_exit_eq s e s1 hstep, hs]
        rfl

/-- Once set, the exit flag survives a whole loop iteration (dispatch
plus bus poll). -/
theorem loopIter_exit_mono (s : SimpleLayer) (evs : List Event)
    (msg : Option Message) (s' : SimpleLayer) (hs : s.exit = true)
    (h : loopIter s evs msg = some s') : s'.exit = true := by
  unfold loopIter at h
  split at h
  · exact absurd h (by simp)
  · rename_i s1 hstep
    cases h
    cases msg with
    | none => exact stepAll_exit_mono evs s s1 hs hstep
    | some m => exact stepAll_exit_mono evs s s1 hs hstep

/-- Claim C10: the exit flag is monotone — the only handlers that write it
(the Escape key-press handler and the surface-closed handler) set it to
`true`, and no handler or loop step resets it; consequently, once set,
the main loop terminates at the end of the current iteration (the
remaining input trace is never consumed). -/
theorem exit_flag_monotone :
    (∀ (s : SimpleLayer) (e : Event) (s' : SimpleLayer),
        step s e = some s' → s'.exit = (s.exit || setsExit e)) ∧
    (∀ (s : SimpleLayer) (it : List Event × Option Message)
        (rest : List (List Event × Option Message)), s.exit = true →
        runLoop s (it :: rest) = runLoop s [it]) := by
  refine ⟨fun s e s' h => step_exit_eq s e s' h, ?_⟩
  intro s it rest hs
  cases hli : loopIter s it.1 it.2 with
  | none => simp [runLoop, hli]
  | some s1 =>
      have h1 : s1.exit = true := loopIter_exit_mono s it.1 it.2 s1 hs hli
      simp [runLoop, hli, h1]

/-- The post-exit state used by the C10 witness. -/
def sExited : SimpleLayer := { sBase with exit := true }

/-- Witness for C10: the closed handler sets the flag at `sBase`, and at
`sExited` the loop ignores the rest of the trace. -/
theorem exit_flag_monotone_witness :
    (step sBase Event.closed = some sExited ∧
      sExited.exit = (sBase.exit || setsExit Event.closed)) ∧
    (sExited.exit = true ∧
      runLoop sExited [([], none), ([], none)] =
        runLoop sExited [([], none)]) :=
  ⟨⟨by decide, exit_flag_monotone.1 sBase Event.closed sExited (by decide)⟩,
    ⟨by decide,
      exit_flag_monotone.2 sExited ([], none) [([], none)] (by decide)⟩⟩

end FprintPrompt


